import Mathlib

/-!
Verification of the falling-sand simulator (src/main.py, class FallingSand).

The grid is a Python list of lists of ints, cell values 0 (EMPTY) and
1 (SAND).  The per-tick rule engine `update_grid` builds a fresh
all-zero next buffer, optionally applies the mouse paint brush
(`handle_drag`), then scans the current grid row-major and writes each
SAND cell's destination (straight fall, else one random diagonal,
else rest) into the next buffer, reading occupancy only from the
frozen current grid.

Randomness (`choice((-1, 1))` and the per-candidate paint thinning
`round(uniform(0, 1), 2) < 0.75`) is modelled by explicit oracles
passed in as functions: `choices : Nat → Nat → Dir` gives the lateral
direction sampled for the cell at (row, col), and `keep : Nat → Nat →
Bool` gives the outcome of the paint-probability test for a brush
candidate offset.
-/

/-- A grid: list of rows, each row a list of cells; 0 is EMPTY, 1 is SAND. -/
abbrev Grid := List (List Nat)

/-- `generate_grid` (main.py 56-64): SIZE rows, each a list of SIZE zeros. -/
def generate_grid (SIZE : Nat) : Grid :=
  List.replicate SIZE (List.replicate SIZE 0)

/-- `within_rows` (main.py 96-102): `0 <= row <= SIZE - 1` on Python ints. -/
def within_rows (SIZE : Nat) (row : Int) : Bool :=
  decide (0 ≤ row) && decide (row ≤ (SIZE : Int) - 1)

/-- `within_cols` (main.py 104-110): `0 <= cols <= SIZE - 1` on Python ints. -/
def within_cols (SIZE : Nat) (cols : Int) : Bool :=
  decide (0 ≤ cols) && decide (cols ≤ (SIZE : Int) - 1)

/-- Read `g[row][col]` for in-range nonnegative indices (out-of-range reads
never happen in the guarded code; the total default is 0). -/
def getCell (g : Grid) (row col : Nat) : Nat :=
  (g.getD row []).getD col 0

/-- Write `g[row][col] = v` (in-place assignment on the next buffer). -/
def setCell (g : Grid) (row col : Nat) (v : Nat) : Grid :=
  g.set row ((g.getD row []).set col v)

/-- Outcome of `choice((-1, 1))` (main.py 156). -/
inductive Dir where
  | left
  | right
deriving DecidableEq, Repr

/-- The integer value of a sampled lateral direction. -/
def Dir.val : Dir → Int
  | .left => -1
  | .right => 1

/-- Body of the inner brush loop of `handle_drag` (main.py 123-129): with
probability 0.75 (oracle `keep`), compute r = mxr + row, c = myc + column,
and if both are in range write `next_grid[c][r] = 1`. -/
def paintCell (SIZE : Nat) (mxr myc : Int) (keep : Nat → Nat → Bool)
    (row : Nat) (g : Grid) (column : Nat) : Grid :=
  if keep row column then
    if within_cols SIZE (myc + column) && within_rows SIZE (mxr + row) then
      setCell g (myc + column).toNat (mxr + row).toNat 1
    else g
  else g

/-- `handle_drag` (main.py 112-129): double loop over `range(RADIUS // 2)`
writing SAND into the next buffer at kept, in-range brush candidates. -/
def handle_drag (SIZE RADIUS : Nat) (mxr myc : Int) (keep : Nat → Nat → Bool)
    (next_grid : Grid) : Grid :=
  (List.range (RADIUS / 2)).foldl (fun g row =>
    (List.range (RADIUS / 2)).foldl (paintCell SIZE mxr myc keep row) g)
    next_grid

/-- The paint input consumed by one tick: brush radius, the pointer's grid
cell (mxr, myc) and the thinning oracle. `none` models the mouse button
not being held. -/
structure PaintInput where
  RADIUS : Nat
  mxr : Int
  myc : Int
  keep : Nat → Nat → Bool

/-- Body of the per-cell movement loop of `update_grid` (main.py 144-164):
skip empty cells; a SAND cell falls straight down when the cell below is
in range and EMPTY in the current grid, else tries the single random
diagonal, else rests in place.  All reads are from `grid` (the frozen
current grid), all writes go to the next buffer `ng`. -/
def moveCell (SIZE : Nat) (grid : Grid) (choices : Nat → Nat → Dir)
    (row : Nat) (ng : Grid) (col : Nat) : Grid :=
  let cell := getCell grid row col
  let below := row + 1
  if cell ≠ 1 then ng
  else if within_rows SIZE (below : Int) && decide (getCell grid below col = 0) then
    setCell ng below col 1
  else
    let new_col : Int := (col : Int) + (choices row col).val
    if within_cols SIZE new_col && within_rows SIZE (below : Int)
        && decide (getCell grid below new_col.toNat = 0) then
      setCell ng below new_col.toNat 1
    else
      setCell ng row col cell

/-- `update_grid` (main.py 131-166): start from a fresh all-EMPTY buffer,
apply the paint brush when the mouse button is held, then move every SAND
cell of the current grid into the buffer, scanning row-major. -/
def update_grid (SIZE : Nat) (grid : Grid) (paint : Option PaintInput)
    (choices : Nat → Nat → Dir) : Grid :=
  let next0 := generate_grid SIZE
  let next1 := match paint with
    | some p => handle_drag SIZE p.RADIUS p.mxr p.myc p.keep next0
    | none => next0
  (List.range SIZE).foldl (fun ng row =>
    (List.range SIZE).foldl (moveCell SIZE grid choices row) ng) next1

/-- The destination cell `update_grid` writes for the SAND source at
(row, col): straight fall, else the sampled diagonal, else the source
itself (rest). -/
def dest (SIZE : Nat) (grid : Grid) (choices : Nat → Nat → Dir)
    (row col : Nat) : Nat × Nat :=
  let below := row + 1
  if within_rows SIZE (below : Int) && decide (getCell grid below col = 0) then
    (below, col)
  else
    let new_col : Int := (col : Int) + (choices row col).val
    if within_cols SIZE new_col && within_rows SIZE (below : Int)
        && decide (getCell grid below new_col.toNat = 0) then
      (below, new_col.toNat)
    else
      (row, col)

/-- Apply a list of SAND writes to a buffer, in order. -/
def applyWrites (init : Grid) (ws : List (Nat × Nat)) : Grid :=
  ws.foldl (fun g w => setCell g w.1 w.2 1) init

/-- The list of destinations written by the movement pass, in scan order. -/
def tickWrites (SIZE : Nat) (grid : Grid) (choices : Nat → Nat → Dir) :
    List (Nat × Nat) :=
  (List.range SIZE).flatMap (fun row =>
    (List.range SIZE).filterMap (fun col =>
      if getCell grid row col = 1 then some (dest SIZE grid choices row col)
      else none))

/-- The list of (c, r) positions painted by `handle_drag`, in loop order. -/
def paintWrites (SIZE RADIUS : Nat) (mxr myc : Int)
    (keep : Nat → Nat → Bool) : List (Nat × Nat) :=
  (List.range (RADIUS / 2)).flatMap (fun row =>
    (List.range (RADIUS / 2)).filterMap (fun column =>
      if keep row column
          && (within_cols SIZE (myc + column) && within_rows SIZE (mxr + row)) then
        some ((myc + column).toNat, (mxr + row).toNat)
      else none))

/-- The next buffer after the optional paint pass, before movement. -/
def paintBuffer (SIZE : Nat) (paint : Option PaintInput) : Grid :=
  match paint with
  | some p => handle_drag SIZE p.RADIUS p.mxr p.myc p.keep (generate_grid SIZE)
  | none => generate_grid SIZE

/-- The positions painted by the tick's paint input. -/
def paintSet (SIZE : Nat) (paint : Option PaintInput) : List (Nat × Nat) :=
  match paint with
  | some p => paintWrites SIZE p.RADIUS p.mxr p.myc p.keep
  | none => []

/-- The grid is a SIZE × SIZE matrix. -/
def isSquare (SIZE : Nat) (g : Grid) : Prop :=
  g.length = SIZE ∧ ∀ r ∈ g, r.length = SIZE

/-- Every cell value is 0 (EMPTY) or 1 (SAND). -/
def cellsBinary (g : Grid) : Prop :=
  ∀ r ∈ g, ∀ v ∈ r, v = 0 ∨ v = 1

/-- Number of SAND cells in a grid. -/
def sandCount (g : Grid) : Nat :=
  (g.map (fun r => r.countP (fun v => v == 1))).sum

/-- Repeated engine ticks with a per-tick random oracle and no paint input
(`chs n` is the oracle used by the n-th tick). -/
def iterTicks (SIZE : Nat) (chs : Nat → Nat → Nat → Dir) : Nat → Grid → Grid
  | 0, g => g
  | n + 1, g => iterTicks SIZE chs n (update_grid SIZE g none (chs n))

/-- Keyboard keys distinguished by `handle_events` (main.py 74-82). -/
inductive Key where
  | r
  | c
  | q
  | other
deriving DecidableEq, Repr

/-- Window events polled by `handle_events` (main.py 71-82). -/
inductive GEvent where
  | quit
  | keydown (k : Key)
deriving DecidableEq, Repr

/-- The engine state read and written by `handle_events`: the fixed grid
side SIZE, the grid, and the running flag. -/
structure EngineState where
  SIZE : Nat
  grid : Grid
  running : Bool

/-- One step of the event loop of `handle_events` (main.py 71-82): QUIT
clears the running flag; KEYDOWN with r or c replaces the grid with a
freshly generated one (the audio cue is platform plumbing, not modelled);
KEYDOWN with q clears the running flag; other keys do nothing. -/
def handle_event (s : EngineState) (e : GEvent) : EngineState :=
  match e with
  | .quit => { s with running := false }
  | .keydown k =>
    match k with
    | .r => { s with grid := generate_grid s.SIZE }
    | .c => { s with grid := generate_grid s.SIZE }
    | .q => { s with running := false }
    | .other => s

/-- `handle_events` (main.py 66-82): process the polled events in order. -/
def handle_events (s : EngineState) (events : List GEvent) : EngineState :=
  events.foldl handle_event s

/-- `TICKRATE` (main.py 40). -/
def TICKRATE : Nat := 30

/-- `_delta_time = 1 / TICKRATE` (main.py 41), in exact arithmetic. -/
def delta_time : ℚ := 1 / TICKRATE

/-- The catch-up loop of `run` (main.py 201-204): while the accumulated
elapsed time is at least one tick duration, tick the engine once and
subtract one tick duration.  Returns how many engine ticks ran this frame
and the remaining accumulated time. -/
def tickLoop (E : ℚ) : Nat × ℚ :=
  if h : delta_time ≤ E then
    let p := tickLoop (E - delta_time)
    (p.1 + 1, p.2)
  else
    (0, E)
termination_by (⌊E / delta_time⌋).toNat
decreasing_by
  simp_wf
  have hd : (0 : ℚ) < delta_time := by norm_num [delta_time, TICKRATE]
  have h1 : (1 : ℚ) ≤ E / delta_time := by
    rw [le_div_iff₀ hd]
    linarith
  have h2 : (1 : ℤ) ≤ ⌊E / delta_time⌋ := Int.le_floor.mpr (by exact_mod_cast h1)
  have hfl : ⌊(E - delta_time) / delta_time⌋ = ⌊E / delta_time⌋ - 1 := by
    rw [sub_div, div_self (ne_of_gt hd), Int.floor_sub_one]
  rw [hfl]
  omega

/-- Python list read `g[row][col]` with both indices checked: fails unless
`0 <= row < len(g)` and `0 <= col < len(g[row])`, so a negative index (which
Python would wrap) or an overflowing index (which Python would raise on) is
reported as `none`. -/
def readCell (g : Grid) (row col : Int) : Option Nat :=
  if 0 ≤ row ∧ row < (g.length : Int) then
    (if 0 ≤ col ∧ col < ((g.getD row.toNat []).length : Int) then
      some ((g.getD row.toNat []).getD col.toNat 0)
    else none)
  else none

/-- Python list write `g[row][col] = v` with both indices checked. -/
def writeCell (g : Grid) (row col : Int) (v : Nat) : Option Grid :=
  if 0 ≤ row ∧ row < (g.length : Int) then
    (if 0 ≤ col ∧ col < ((g.getD row.toNat []).length : Int) then
      some (g.set row.toNat ((g.getD row.toNat []).set col.toNat v))
    else none)
  else none

/-- `paintCell` with its grid write index-checked. -/
def paintCellChecked (SIZE : Nat) (mxr myc : Int) (keep : Nat → Nat → Bool)
    (row : Nat) (g : Grid) (column : Nat) : Option Grid :=
  if keep row column then
    if within_cols SIZE (myc + column) && within_rows SIZE (mxr + row) then
      writeCell g (myc + column) (mxr + row) 1
    else some g
  else some g

/-- `handle_drag` with every grid access index-checked. -/
def handle_dragChecked (SIZE RADIUS : Nat) (mxr myc : Int)
    (keep : Nat → Nat → Bool) (next_grid : Grid) : Option Grid :=
  (List.range (RADIUS / 2)).foldlM (fun g row =>
    (List.range (RADIUS / 2)).foldlM (paintCellChecked SIZE mxr myc keep row) g)
    next_grid

/-- `moveCell` with every grid access index-checked, evaluating the
short-circuit `and` exactly as Python does: `grid[below][col]` is read
only after `within_rows(below)` holds, and `grid[below][new_col]` only
after both bounds checks hold. -/
def moveCellChecked (SIZE : Nat) (grid : Grid) (choices : Nat → Nat → Dir)
    (row : Nat) (ng : Grid) (col : Nat) : Option Grid := do
  let cell ← readCell grid row col
  let below := row + 1
  if cell ≠ 1 then
    pure ng
  else
    let fall ← (if within_rows SIZE (below : Int) then do
        let b ← readCell grid below col
        pure (decide (b = 0))
      else pure false)
    if fall then
      writeCell ng below col 1
    else
      let new_col : Int := (col : Int) + (choices row col).val
      let slide ← (if within_cols SIZE new_col && within_rows SIZE (below : Int) then do
          let b ← readCell grid below new_col
          pure (decide (b = 0))
        else pure false)
      if slide then
        writeCell ng below new_col 1
      else
        writeCell ng row col cell

/-- `update_grid` with every grid access index-checked. -/
def update_gridChecked (SIZE : Nat) (grid : Grid) (paint : Option PaintInput)
    (choices : Nat → Nat → Dir) : Option Grid := do
  let next0 := generate_grid SIZE
  let next1 ← (match paint with
    | some p => handle_dragChecked SIZE p.RADIUS p.mxr p.myc p.keep next0
    | none => some next0)
  (List.range SIZE).foldlM (fun ng row =>
    (List.range SIZE).foldlM (moveCellChecked SIZE grid choices row) ng) next1

example : getCell (setCell (generate_grid 3) 1 1 1) 1 1 = 1 := by decide

example : update_grid 3 [[0,1,0],[0,0,0],[0,0,0]] none (fun _ _ => Dir.left)
    = [[0,0,0],[0,1,0],[0,0,0]] := by decide

example : update_grid 3 [[1,0,0],[1,0,0],[0,0,0]] none (fun _ _ => Dir.left)
    = [[1,0,0],[0,0,0],[1,0,0]] := by decide

example : update_grid 3 [[1,0,0],[1,0,0],[0,0,0]] none (fun _ _ => Dir.right)
    = [[0,0,0],[0,1,0],[1,0,0]] := by decide

example : update_grid 2 [[0,0],[1,1]] none (fun _ _ => Dir.right)
    = [[0,0],[1,1]] := by decide

example : sandCount (update_grid 3 [[1,1,0],[1,0,0],[0,0,0]] none
    (fun _ _ => Dir.right)) = 2 := by decide

/-! ### Basic cell access lemmas -/

lemma getD_set_of_ne {α} (l : List α) (n m : Nat) (a d : α) (h : n ≠ m) :
    (l.set n a).getD m d = l.getD m d := by
  rw [List.getD_eq_getElem?_getD, List.getElem?_set_ne h,
    ← List.getD_eq_getElem?_getD]

lemma getD_set_self {α} (l : List α) (n : Nat) (a d : α) (h : n < l.length) :
    (l.set n a).getD n d = a := by
  rw [List.getD_eq_getElem?_getD, List.getElem?_set_self h]
  rfl

lemma getCell_setCell_ne (g : Grid) (a b i j v : Nat) (h : i ≠ a ∨ j ≠ b) :
    getCell (setCell g a b v) i j = getCell g i j := by
  unfold getCell setCell
  by_cases hia : i = a
  · subst hia
    rcases h with h | h
    · exact absurd rfl h
    · by_cases hlen : i < g.length
      · rw [getD_set_self _ _ _ _ hlen, getD_set_of_ne _ _ _ _ _ (Ne.symm h)]
      · rw [List.set_eq_of_length_le (Nat.le_of_not_lt hlen)]
  · rw [getD_set_of_ne _ _ _ _ _ (fun he => hia he.symm)]

lemma getCell_setCell_self (g : Grid) (a b v : Nat) (h1 : a < g.length)
    (h2 : b < (g.getD a []).length) :
    getCell (setCell g a b v) a b = v := by
  unfold getCell setCell
  rw [getD_set_self _ _ _ _ h1, getD_set_self _ _ _ _ h2]

lemma length_setCell (g : Grid) (a b v : Nat) :
    (setCell g a b v).length = g.length := by
  unfold setCell
  exact List.length_set g a _

lemma row_length_of_isSquare {SIZE : Nat} {g : Grid} (hsq : isSquare SIZE g)
    {a : Nat} (ha : a < SIZE) : (g.getD a []).length = SIZE := by
  have hlen : a < g.length := by rw [hsq.1]; exact ha
  rw [List.getD_eq_getElem g [] hlen]
  exact hsq.2 _ (List.getElem_mem hlen)

lemma isSquare_setCell {SIZE : Nat} {g : Grid} (hsq : isSquare SIZE g)
    (a b v : Nat) : isSquare SIZE (setCell g a b v) := by
  constructor
  · rw [length_setCell, hsq.1]
  · intro r hr
    unfold setCell at hr
    by_cases ha : a < g.length
    · rcases List.mem_or_eq_of_mem_set hr with hr2 | hr2
      · exact hsq.2 _ hr2
      · subst hr2
        rw [List.length_set]
        exact row_length_of_isSquare hsq (hsq.1 ▸ ha)
    · rw [List.set_eq_of_length_le (Nat.le_of_not_lt ha)] at hr
      exact hsq.2 _ hr

lemma getCell_setCell_sq {SIZE : Nat} {g : Grid} (hsq : isSquare SIZE g)
    {a b : Nat} (v : Nat) (ha : a < SIZE) (hb : b < SIZE) :
    getCell (setCell g a b v) a b = v := by
  apply getCell_setCell_self
  · rw [hsq.1]; exact ha
  · rw [row_length_of_isSquare hsq ha]; exact hb

lemma getCell_generate_grid (SIZE i j : Nat) :
    getCell (generate_grid SIZE) i j = 0 := by
  unfold getCell generate_grid
  rw [List.getD_eq_getElem?_getD (List.replicate SIZE (List.replicate SIZE 0)) i [],
    List.getElem?_replicate]
  by_cases hi : i < SIZE
  · rw [if_pos hi, Option.getD_some, List.getD_eq_getElem?_getD,
      List.getElem?_replicate]
    by_cases hj : j < SIZE
    · rw [if_pos hj]; rfl
    · rw [if_neg hj]; rfl
  · rw [if_neg hi]; rfl

lemma isSquare_generate_grid (SIZE : Nat) : isSquare SIZE (generate_grid SIZE) := by
  constructor
  · simp [generate_grid]
  · intro r hr
    rw [List.eq_of_mem_replicate hr]
    simp

lemma grid_ext {SIZE : Nat} {g1 g2 : Grid} (h1 : isSquare SIZE g1)
    (h2 : isSquare SIZE g2)
    (h : ∀ i j, i < SIZE → j < SIZE → getCell g1 i j = getCell g2 i j) :
    g1 = g2 := by
  apply List.ext_getElem (by rw [h1.1, h2.1])
  intro i hi1 hi2
  have hiS : i < SIZE := by rw [← h1.1]; exact hi1
  have hr1 : g1[i].length = SIZE := h1.2 _ (List.getElem_mem hi1)
  have hr2 : g2[i].length = SIZE := h2.2 _ (List.getElem_mem hi2)
  apply List.ext_getElem (by rw [hr1, hr2])
  intro j hj1 hj2
  have hjS : j < SIZE := by rw [← hr1]; exact hj1
  have e1 : getCell g1 i j = g1[i][j] := by
    unfold getCell
    rw [List.getD_eq_getElem _ _ hi1, List.getD_eq_getElem _ _ hj1]
  have e2 : getCell g2 i j = g2[i][j] := by
    unfold getCell
    rw [List.getD_eq_getElem _ _ hi2, List.getD_eq_getElem _ _ hj2]
  rw [← e1, ← e2]
  exact h i j hiS hjS

/-! ### applyWrites: pointwise characterisation of a write pass -/

lemma applyWrites_nil (g : Grid) : applyWrites g [] = g := rfl

lemma applyWrites_cons (g : Grid) (w : Nat × Nat) (t : List (Nat × Nat)) :
    applyWrites g (w :: t) = applyWrites (setCell g w.1 w.2 1) t := rfl

lemma applyWrites_append (g : Grid) (a b : List (Nat × Nat)) :
    applyWrites g (a ++ b) = applyWrites (applyWrites g a) b := by
  unfold applyWrites
  exact List.foldl_append _ _ _ _

lemma isSquare_applyWrites {SIZE : Nat} {g : Grid} (hsq : isSquare SIZE g)
    (ws : List (Nat × Nat)) : isSquare SIZE (applyWrites g ws) := by
  induction ws generalizing g with
  | nil => exact hsq
  | cons w t ih => exact ih (isSquare_setCell hsq w.1 w.2 1)

lemma getCell_applyWrites {SIZE : Nat} {g : Grid} (hsq : isSquare SIZE g)
    {ws : List (Nat × Nat)} (hws : ∀ w ∈ ws, w.1 < SIZE ∧ w.2 < SIZE)
    (i j : Nat) :
    getCell (applyWrites g ws) i j = if (i, j) ∈ ws then 1 else getCell g i j := by
  induction ws generalizing g with
  | nil => simp [applyWrites_nil]
  | cons w t ih =>
    rw [applyWrites_cons]
    have hw := hws w (List.mem_cons_self _ _)
    have hsq' := isSquare_setCell hsq w.1 w.2 1
    rw [ih hsq' (fun x hx => hws x (List.mem_cons_of_mem _ hx))]
    by_cases ht : (i, j) ∈ t
    · simp [ht, List.mem_cons]
    · by_cases hwij : (i, j) = w
      · have : getCell (setCell g w.1 w.2 1) i j = 1 := by
          rcases hwij with rfl
          exact getCell_setCell_sq hsq 1 hw.1 hw.2
        simp [ht, hwij, this]
      · have : getCell (setCell g w.1 w.2 1) i j = getCell g i j := by
          apply getCell_setCell_ne
          by_contra hc
          push_neg at hc
          exact hwij (by rw [Prod.ext_iff]; exact ⟨hc.1, hc.2⟩)
        simp [ht, hwij, this, List.mem_cons]

/-! ### The loop bodies as optional writes -/

lemma moveCell_eq (SIZE : Nat) (grid : Grid) (choices : Nat → Nat → Dir)
    (row : Nat) (ng : Grid) (col : Nat) :
    moveCell SIZE grid choices row ng col =
      match (if getCell grid row col = 1
             then some (dest SIZE grid choices row col) else none) with
      | some w => setCell ng w.1 w.2 1
      | none => ng := by
  by_cases h : getCell grid row col = 1
  · rw [if_pos h]
    unfold moveCell dest
    simp only [h, ne_eq, not_true_eq_false, if_false]
    by_cases h1 : (within_rows SIZE ((row + 1 : Nat) : Int)
        && decide (getCell grid (row + 1) col = 0)) = true
    · rw [if_pos h1, if_pos h1]
    · rw [if_neg h1, if_neg h1]
      by_cases h2 : (within_cols SIZE ((col : Int) + (choices row col).val)
          && within_rows SIZE ((row + 1 : Nat) : Int)
          && decide (getCell grid (row + 1)
              ((col : Int) + (choices row col).val).toNat = 0)) = true
      · rw [if_pos h2, if_pos h2]
      · rw [if_neg h2, if_neg h2]
  · rw [if_neg h]
    unfold moveCell
    simp only [h, ne_eq, not_false_eq_true, if_true]

lemma paintCell_eq (SIZE : Nat) (mxr myc : Int) (keep : Nat → Nat → Bool)
    (row : Nat) (g : Grid) (column : Nat) :
    paintCell SIZE mxr myc keep row g column =
      match (if keep row column
                && (within_cols SIZE (myc + column) && within_rows SIZE (mxr + row))
             then some ((myc + column).toNat, (mxr + row).toNat) else none) with
      | some w => setCell g w.1 w.2 1
      | none => g := by
  unfold paintCell
  by_cases hk : keep row column = true
  · rw [if_pos hk]
    by_cases hg : (within_cols SIZE (myc + column)
        && within_rows SIZE (mxr + row)) = true
    · rw [if_pos hg, if_pos (show (keep row column
        && (within_cols SIZE (myc + column) && within_rows SIZE (mxr + row)))
          = true by rw [hk, hg]; rfl)]
    · rw [if_neg hg, if_neg (show ¬ (keep row column
        && (within_cols SIZE (myc + column) && within_rows SIZE (mxr + row)))
          = true by simp [hk, eq_false_of_ne_true hg])]
  · rw [if_neg hk, if_neg (show ¬ (keep row column
        && (within_cols SIZE (myc + column) && within_rows SIZE (mxr + row)))
          = true by simp [eq_false_of_ne_true hk])]

lemma foldl_filterMap_eq {α} (body : Grid → α → Grid)
    (f : α → Option (Nat × Nat))
    (hb : ∀ g x, body g x =
      match f x with
      | some w => setCell g w.1 w.2 1
      | none => g) :
    ∀ (L : List α) (g : Grid), L.foldl body g = applyWrites g (L.filterMap f) := by
  intro L
  induction L with
  | nil => intro g; rfl
  | cons x t ih =>
    intro g
    rw [List.foldl_cons, ih, hb g x, List.filterMap_cons]
    cases hf : f x with
    | none => rfl
    | some w => rw [applyWrites_cons]

lemma foldl_rows_eq {α} (wf : α → List (Nat × Nat)) :
    ∀ (rows : List α) (g : Grid),
      rows.foldl (fun g r => applyWrites g (wf r)) g
        = applyWrites g (rows.flatMap wf) := by
  intro rows
  induction rows with
  | nil => intro g; rfl
  | cons x t ih =>
    intro g
    rw [List.foldl_cons, ih, List.flatMap_cons, applyWrites_append]

/-- `handle_drag` is exactly the paint-writes pass over the buffer. -/
lemma handle_drag_eq_writes (SIZE RADIUS : Nat) (mxr myc : Int)
    (keep : Nat → Nat → Bool) (g : Grid) :
    handle_drag SIZE RADIUS mxr myc keep g
      = applyWrites g (paintWrites SIZE RADIUS mxr myc keep) := by
  unfold handle_drag paintWrites
  rw [← foldl_rows_eq]
  apply List.foldl_ext
  intro g' row _
  exact foldl_filterMap_eq _ _ (paintCell_eq SIZE mxr myc keep row) _ g'

/-- `update_grid` is exactly: paint pass, then the movement-writes pass. -/
lemma update_grid_eq_writes (SIZE : Nat) (grid : Grid)
    (paint : Option PaintInput) (choices : Nat → Nat → Dir) :
    update_grid SIZE grid paint choices
      = applyWrites (paintBuffer SIZE paint) (tickWrites SIZE grid choices) := by
  unfold update_grid tickWrites paintBuffer
  rw [← foldl_rows_eq]
  cases paint with
  | none =>
    apply List.foldl_ext
    intro g' row _
    exact foldl_filterMap_eq _ _ (moveCell_eq SIZE grid choices row) _ g'
  | some p =>
    apply List.foldl_ext
    intro g' row _
    exact foldl_filterMap_eq _ _ (moveCell_eq SIZE grid choices row) _ g'

/-! ### Bounds and membership facts -/

lemma within_rows_iff (SIZE : Nat) (x : Int) :
    within_rows SIZE x = true ↔ 0 ≤ x ∧ x ≤ (SIZE : Int) - 1 := by
  simp [within_rows]

lemma within_cols_iff (SIZE : Nat) (x : Int) :
    within_cols SIZE x = true ↔ 0 ≤ x ∧ x ≤ (SIZE : Int) - 1 := by
  simp [within_cols]

lemma dest_bounds (SIZE : Nat) (grid : Grid) (choices : Nat → Nat → Dir)
    (row col : Nat) (hr : row < SIZE) (hc : col < SIZE) :
    (dest SIZE grid choices row col).1 < SIZE
      ∧ (dest SIZE grid choices row col).2 < SIZE := by
  unfold dest
  by_cases h1 : (within_rows SIZE ((row + 1 : Nat) : Int)
      && decide (getCell grid (row + 1) col = 0)) = true
  · rw [if_pos h1]
    rw [Bool.and_eq_true] at h1
    have hw := (within_rows_iff SIZE _).mp h1.1
    exact ⟨by omega, hc⟩
  · rw [if_neg h1]
    by_cases h2 : (within_cols SIZE ((col : Int) + (choices row col).val)
        && within_rows SIZE ((row + 1 : Nat) : Int)
        && decide (getCell grid (row + 1)
            ((col : Int) + (choices row col).val).toNat = 0)) = true
    · rw [if_pos h2]
      rw [Bool.and_eq_true, Bool.and_eq_true] at h2
      have hcol := (within_cols_iff SIZE _).mp h2.1.1
      have hrow := (within_rows_iff SIZE _).mp h2.1.2
      exact ⟨by omega, by omega⟩
    · rw [if_neg h2]
      exact ⟨hr, hc⟩

lemma mem_tickWrites (SIZE : Nat) (grid : Grid) (choices : Nat → Nat → Dir)
    (w : Nat × Nat) :
    w ∈ tickWrites SIZE grid choices ↔
      ∃ r c, r < SIZE ∧ c < SIZE ∧ getCell grid r c = 1
        ∧ dest SIZE grid choices r c = w := by
  unfold tickWrites
  simp only [List.mem_flatMap, List.mem_filterMap, List.mem_range]
  constructor
  · rintro ⟨r, hr, c, hc, hfc⟩
    by_cases h : getCell grid r c = 1
    · rw [if_pos h] at hfc
      exact ⟨r, c, hr, hc, h, Option.some_inj.mp hfc⟩
    · rw [if_neg h] at hfc
      cases hfc
  · rintro ⟨r, c, hr, hc, h, hd⟩
    exact ⟨r, hr, c, hc, by rw [if_pos h, hd]⟩

lemma tickWrites_bounds (SIZE : Nat) (grid : Grid) (choices : Nat → Nat → Dir) :
    ∀ w ∈ tickWrites SIZE grid choices, w.1 < SIZE ∧ w.2 < SIZE := by
  intro w hw
  rcases (mem_tickWrites SIZE grid choices w).mp hw with ⟨r, c, hr, hc, _, hd⟩
  rw [← hd]
  exact dest_bounds SIZE grid choices r c hr hc

lemma mem_paintWrites (SIZE RADIUS : Nat) (mxr myc : Int)
    (keep : Nat → Nat → Bool) (w : Nat × Nat) :
    w ∈ paintWrites SIZE RADIUS mxr myc keep ↔
      ∃ row column, row < RADIUS / 2 ∧ column < RADIUS / 2
        ∧ keep row column = true
        ∧ within_cols SIZE (myc + column) = true
        ∧ within_rows SIZE (mxr + row) = true
        ∧ ((myc + column).toNat, (mxr + row).toNat) = w := by
  unfold paintWrites
  simp only [List.mem_flatMap, List.mem_filterMap, List.mem_range]
  constructor
  · rintro ⟨row, hrow, column, hcolumn, hfc⟩
    by_cases h : (keep row column
        && (within_cols SIZE (myc + column) && within_rows SIZE (mxr + row))) = true
    · rw [if_pos h] at hfc
      rw [Bool.and_eq_true, Bool.and_eq_true] at h
      exact ⟨row, column, hrow, hcolumn, h.1, h.2.1, h.2.2, Option.some_inj.mp hfc⟩
    · rw [if_neg h] at hfc
      cases hfc
  · rintro ⟨row, column, hrow, hcolumn, hk, hc, hr, hd⟩
    refine ⟨row, hrow, column, hcolumn, ?_⟩
    rw [if_pos (by rw [hk, hc, hr]; rfl), hd]

lemma paintWrites_bounds (SIZE RADIUS : Nat) (mxr myc : Int)
    (keep : Nat → Nat → Bool) :
    ∀ w ∈ paintWrites SIZE RADIUS mxr myc keep, w.1 < SIZE ∧ w.2 < SIZE := by
  intro w hw
  rcases (mem_paintWrites SIZE RADIUS mxr myc keep w).mp hw with
    ⟨row, column, _, _, _, hc, hr, hd⟩
  have h1 := (within_cols_iff SIZE _).mp hc
  have h2 := (within_rows_iff SIZE _).mp hr
  rw [← hd]
  exact ⟨by omega, by omega⟩

lemma paintSet_bounds (SIZE : Nat) (paint : Option PaintInput) :
    ∀ w ∈ paintSet SIZE paint, w.1 < SIZE ∧ w.2 < SIZE := by
  cases paint with
  | none => intro w hw; cases hw
  | some p => exact paintWrites_bounds SIZE p.RADIUS p.mxr p.myc p.keep

lemma isSquare_paintBuffer (SIZE : Nat) (paint : Option PaintInput) :
    isSquare SIZE (paintBuffer SIZE paint) := by
  cases paint with
  | none => exact isSquare_generate_grid SIZE
  | some p =>
    show isSquare SIZE
      (handle_drag SIZE p.RADIUS p.mxr p.myc p.keep (generate_grid SIZE))
    rw [handle_drag_eq_writes]
    exact isSquare_applyWrites (isSquare_generate_grid SIZE) _

lemma getCell_paintBuffer (SIZE : Nat) (paint : Option PaintInput) (i j : Nat) :
    getCell (paintBuffer SIZE paint) i j
      = if (i, j) ∈ paintSet SIZE paint then 1 else 0 := by
  cases paint with
  | none =>
    show getCell (generate_grid SIZE) i j
      = if (i, j) ∈ ([] : List (Nat × Nat)) then 1 else 0
    simp [getCell_generate_grid]
  | some p =>
    show getCell (handle_drag SIZE p.RADIUS p.mxr p.myc p.keep
        (generate_grid SIZE)) i j
      = if (i, j) ∈ paintWrites SIZE p.RADIUS p.mxr p.myc p.keep then 1 else 0
    rw [handle_drag_eq_writes,
      getCell_applyWrites (isSquare_generate_grid SIZE)
        (paintWrites_bounds SIZE p.RADIUS p.mxr p.myc p.keep) i j,
      getCell_generate_grid]

/-- Master pointwise description of one tick: a cell of the next grid is
SAND exactly when it is a movement destination or a painted position,
and EMPTY otherwise. -/
lemma getCell_update_grid (SIZE : Nat) (grid : Grid) (paint : Option PaintInput)
    (choices : Nat → Nat → Dir) (i j : Nat) :
    getCell (update_grid SIZE grid paint choices) i j
      = if (i, j) ∈ tickWrites SIZE grid choices then 1
        else if (i, j) ∈ paintSet SIZE paint then 1 else 0 := by
  rw [update_grid_eq_writes,
    getCell_applyWrites (isSquare_paintBuffer SIZE paint)
      (tickWrites_bounds SIZE grid choices) i j,
    getCell_paintBuffer]

lemma isSquare_update_grid (SIZE : Nat) (grid : Grid) (paint : Option PaintInput)
    (choices : Nat → Nat → Dir) :
    isSquare SIZE (update_grid SIZE grid paint choices) := by
  rw [update_grid_eq_writes]
  exact isSquare_applyWrites (isSquare_paintBuffer SIZE paint) _

/-! ### Destination branch lemmas -/

lemma dest_fall (SIZE : Nat) (grid : Grid) (choices : Nat → Nat → Dir)
    (row col : Nat) (h1 : within_rows SIZE ((row + 1 : Nat) : Int) = true)
    (h2 : getCell grid (row + 1) col = 0) :
    dest SIZE grid choices row col = (row + 1, col) := by
  unfold dest
  rw [if_pos (by rw [h1]; simp [h2])]

lemma dest_rest (SIZE : Nat) (grid : Grid) (choices : Nat → Nat → Dir)
    (row col : Nat)
    (h1 : ¬ (within_rows SIZE ((row + 1 : Nat) : Int) = true
          ∧ getCell grid (row + 1) col = 0))
    (h2 : ¬ (within_cols SIZE ((col : Int) + (choices row col).val) = true
          ∧ within_rows SIZE ((row + 1 : Nat) : Int) = true
          ∧ getCell grid (row + 1)
              ((col : Int) + (choices row col).val).toNat = 0)) :
    dest SIZE grid choices row col = (row, col) := by
  unfold dest
  rw [if_neg (by simpa [Bool.and_eq_true] using h1),
    if_neg (by simpa [Bool.and_eq_true, and_assoc] using h2)]

lemma dest_diag (SIZE : Nat) (grid : Grid) (choices : Nat → Nat → Dir)
    (row col : Nat)
    (h1 : ¬ (within_rows SIZE ((row + 1 : Nat) : Int) = true
          ∧ getCell grid (row + 1) col = 0))
    (h2 : within_cols SIZE ((col : Int) + (choices row col).val) = true)
    (h3 : within_rows SIZE ((row + 1 : Nat) : Int) = true)
    (h4 : getCell grid (row + 1)
        ((col : Int) + (choices row col).val).toNat = 0) :
    dest SIZE grid choices row col
      = (row + 1, ((col : Int) + (choices row col).val).toNat) := by
  unfold dest
  rw [if_neg (by simpa [Bool.and_eq_true] using h1),
    if_pos (by rw [h2, h3]; simp [h4])]

/-! ### A single falling particle -/

lemma straight_fall_pointwise (SIZE : Nat) (grid : Grid)
    (choices : Nat → Nat → Dir) (r c : Nat)
    (hgrid : ∀ i, i < SIZE → ∀ j, j < SIZE →
      getCell grid i j = if i = r ∧ j = c then 1 else 0)
    (hr : r + 1 < SIZE) (hc : c < SIZE) :
    ∀ i, i < SIZE → ∀ j, j < SIZE →
      getCell (update_grid SIZE grid none choices) i j
        = if i = r + 1 ∧ j = c then 1 else 0 := by
  intro i hi j hj
  have hrS : r < SIZE := Nat.lt_of_succ_lt hr
  have hsand : getCell grid r c = 1 := by
    rw [hgrid r hrS c hc]
    simp
  have hbelow : getCell grid (r + 1) c = 0 := by
    rw [hgrid (r + 1) hr c hc, if_neg (by omega)]
  have hdest : dest SIZE grid choices r c = (r + 1, c) :=
    dest_fall SIZE grid choices r c (by rw [within_rows_iff]; omega) hbelow
  rw [getCell_update_grid]
  have hmem : (i, j) ∈ tickWrites SIZE grid choices ↔ (i = r + 1 ∧ j = c) := by
    rw [mem_tickWrites]
    constructor
    · rintro ⟨r0, c0, hr0, hc0, hs0, hd0⟩
      have hrc : r0 = r ∧ c0 = c := by
        by_contra hcon
        rw [hgrid r0 hr0 c0 hc0, if_neg hcon] at hs0
        exact absurd hs0 (by omega)
      rcases hrc with ⟨rfl, rfl⟩
      rw [hdest] at hd0
      injection hd0 with e1 e2
      exact ⟨e1.symm, e2.symm⟩
    · rintro ⟨rfl, rfl⟩
      exact ⟨_, _, hrS, hc, hsand, hdest⟩
  have hps : paintSet SIZE (none : Option PaintInput) = [] := rfl
  rw [hps]
  by_cases hij : i = r + 1 ∧ j = c
  · rw [if_pos (hmem.mpr hij), if_pos hij]
  · rw [if_neg (fun hm => hij (hmem.mp hm)), if_neg hij]
    simp

/-- Claim C3: a grid whose only SAND cell is at (r, c), with (r+1, c) in
range (hence EMPTY), produces after one tick a grid with SAND only at
(r+1, c), for every random lateral choice; in particular for SIZE = 3 with
the single SAND at (0, 1), one tick yields SAND exactly at (1, 1). -/
theorem C3_straight_fall_priority :
    (∀ (SIZE : Nat) (grid : Grid) (choices : Nat → Nat → Dir) (r c : Nat),
      (∀ i, i < SIZE → ∀ j, j < SIZE →
        getCell grid i j = if i = r ∧ j = c then 1 else 0) →
      r + 1 < SIZE → c < SIZE →
      ∀ i, i < SIZE → ∀ j, j < SIZE →
        getCell (update_grid SIZE grid none choices) i j
          = if i = r + 1 ∧ j = c then 1 else 0)
    ∧ (∀ choices : Nat → Nat → Dir,
        update_grid 3 [[0,1,0],[0,0,0],[0,0,0]] none choices
          = [[0,0,0],[0,1,0],[0,0,0]]) := by
  constructor
  · exact straight_fall_pointwise
  · intro choices
    apply grid_ext (isSquare_update_grid 3 _ none choices)
      ⟨by decide, by decide⟩
    intro i j hi hj
    rw [straight_fall_pointwise 3 _ choices 0 1 (by decide) (by decide)
      (by decide) i hi j hj]
    interval_cases i <;> interval_cases j <;> rfl

/-- Witness for C3: the SIZE = 3 scenario at a concrete random oracle. -/
theorem C3_straight_fall_priority_witness :
    getCell (update_grid 3 [[0,1,0],[0,0,0],[0,0,0]] none
      (fun _ _ => Dir.left)) 1 1 = if 1 = 0 + 1 ∧ 1 = 1 then 1 else 0 :=
  C3_straight_fall_priority.1 3 [[0,1,0],[0,0,0],[0,0,0]]
    (fun _ _ => Dir.left) 0 1 (by decide) (by decide) (by decide)
    1 (by decide) 1 (by decide)

/-! ### Resting particles -/

lemma getCell_pos_bounds {SIZE : Nat} {g : Grid} (hsq : isSquare SIZE g)
    {r c : Nat} (h : getCell g r c ≠ 0) : r < SIZE ∧ c < SIZE := by
  constructor
  · by_contra hr
    apply h
    unfold getCell
    rw [List.getD_eq_getElem?_getD g r [],
      List.getElem?_eq_none (by rw [hsq.1]; omega)]
    rfl
  · by_contra hc2
    apply h
    unfold getCell
    by_cases hr : r < SIZE
    · rw [List.getD_eq_getElem?_getD (g.getD r []) c 0,
        List.getElem?_eq_none (by rw [row_length_of_isSquare hsq hr]; omega)]
      rfl
    · rw [List.getD_eq_getElem?_getD g r [],
        List.getElem?_eq_none (by rw [hsq.1]; omega)]
      rfl

lemma rest_stays (SIZE : Nat) (grid : Grid) (choices : Nat → Nat → Dir)
    (r c : Nat) (hsq : isSquare SIZE grid)
    (hsand : getCell grid r c = 1)
    (hfall : ¬ (within_rows SIZE ((r + 1 : Nat) : Int) = true
        ∧ getCell grid (r + 1) c = 0))
    (hdiag : ∀ d : Dir, ¬ (within_cols SIZE ((c : Int) + d.val) = true
        ∧ within_rows SIZE ((r + 1 : Nat) : Int) = true
        ∧ getCell grid (r + 1) ((c : Int) + d.val).toNat = 0)) :
    getCell (update_grid SIZE grid none choices) r c = 1 := by
  obtain ⟨hr, hc⟩ := getCell_pos_bounds hsq (by rw [hsand]; omega)
  have hdest : dest SIZE grid choices r c = (r, c) :=
    dest_rest SIZE grid choices r c hfall (hdiag (choices r c))
  rw [getCell_update_grid,
    if_pos ((mem_tickWrites SIZE grid choices (r, c)).mpr
      ⟨r, c, hr, hc, hsand, hdest⟩)]

/-- Claim C4: a SAND cell whose below cell is blocked or out of range and
whose two diagonal destinations are each blocked or out of range rests in
place, for every random choice; the SIZE = 2 grid with a full bottom row
and empty top row is unchanged by one tick, and by any number of ticks. -/
theorem C4_rest_in_place :
    (∀ (SIZE : Nat) (grid : Grid) (choices : Nat → Nat → Dir) (r c : Nat),
      isSquare SIZE grid →
      getCell grid r c = 1 →
      ¬ (within_rows SIZE ((r + 1 : Nat) : Int) = true
          ∧ getCell grid (r + 1) c = 0) →
      (∀ d : Dir, ¬ (within_cols SIZE ((c : Int) + d.val) = true
          ∧ within_rows SIZE ((r + 1 : Nat) : Int) = true
          ∧ getCell grid (r + 1) ((c : Int) + d.val).toNat = 0)) →
      getCell (update_grid SIZE grid none choices) r c = 1)
    ∧ (∀ choices : Nat → Nat → Dir,
        update_grid 2 [[0,0],[1,1]] none choices = [[0,0],[1,1]])
    ∧ (∀ (chs : Nat → Nat → Nat → Dir) (n : Nat),
        iterTicks 2 chs n [[0,0],[1,1]] = [[0,0],[1,1]]) := by
  have hstep : ∀ choices : Nat → Nat → Dir,
      update_grid 2 [[0,0],[1,1]] none choices = [[0,0],[1,1]] := by
    intro choices
    have hmem : ∀ w, w ∈ tickWrites 2 [[0,0],[1,1]] choices ↔
        (w = (1, 0) ∨ w = (1, 1)) := by
      intro w
      rw [mem_tickWrites]
      constructor
      · rintro ⟨r0, c0, hr0, hc0, hs0, hd0⟩
        have hsrc : r0 = 1 ∧ (c0 = 0 ∨ c0 = 1) := by
          interval_cases r0 <;> interval_cases c0
          · exact absurd hs0 (by decide)
          · exact absurd hs0 (by decide)
          · exact ⟨rfl, Or.inl rfl⟩
          · exact ⟨rfl, Or.inr rfl⟩
        obtain ⟨rfl, hc01⟩ := hsrc
        have hdr : dest 2 [[0,0],[1,1]] choices 1 c0 = (1, c0) := by
          apply dest_rest
          · rw [within_rows_iff]
            intro hcon
            omega
          · rw [within_rows_iff]
            intro hcon
            omega
        rw [hdr] at hd0
        rcases hc01 with rfl | rfl
        · exact Or.inl hd0.symm
        · exact Or.inr hd0.symm
      · rintro (rfl | rfl)
        · refine ⟨1, 0, by omega, by omega, by decide, ?_⟩
          apply dest_rest
          · rw [within_rows_iff]
            intro hcon
            omega
          · rw [within_rows_iff]
            intro hcon
            omega
        · refine ⟨1, 1, by omega, by omega, by decide, ?_⟩
          apply dest_rest
          · rw [within_rows_iff]
            intro hcon
            omega
          · rw [within_rows_iff]
            intro hcon
            omega
    apply grid_ext (isSquare_update_grid 2 _ none choices)
      ⟨by decide, by decide⟩
    intro i j hi hj
    rw [getCell_update_grid]
    have hps : paintSet 2 (none : Option PaintInput) = [] := rfl
    rw [hps]
    by_cases hm : (i, j) ∈ tickWrites 2 [[0,0],[1,1]] choices
    · have := (hmem (i, j)).mp hm
      rw [if_pos hm]
      rcases this with h1 | h1 <;>
        · injection h1 with e1 e2
          subst e1
          subst e2
          rfl
    · rw [if_neg hm]
      have hnot : ¬ ((i, j) = (1, 0) ∨ (i, j) = (1, 1)) :=
        fun h => hm ((hmem (i, j)).mpr h)
      simp only [List.not_mem_nil, if_false]
      interval_cases i <;> interval_cases j
      · rfl
      · rfl
      · exact absurd (Or.inl rfl) hnot
      · exact absurd (Or.inr rfl) hnot
  refine ⟨rest_stays, hstep, ?_⟩
  · intro chs n
    induction n with
    | zero => rfl
    | succ m ih =>
      show iterTicks 2 chs m (update_grid 2 [[0,0],[1,1]] none (chs m))
        = [[0,0],[1,1]]
      rw [hstep (chs m)]
      exact ih

/-- Witness for C4: the bottom-left cell of the full bottom row stays. -/
theorem C4_rest_in_place_witness :
    getCell (update_grid 2 [[0,0],[1,1]] none (fun _ _ => Dir.left)) 1 0 = 1 :=
  C4_rest_in_place.1 2 [[0,0],[1,1]] (fun _ _ => Dir.left) 1 0
    ⟨by decide, by decide⟩ (by decide) (by decide)
    (by intro d; cases d <;> decide)

/-- Claim C5: a cell of the next grid that is neither a painted position
nor the computed destination of some SAND cell of the current grid is
EMPTY after `update_grid` — a tick never creates SAND at an untouched
cell. -/
theorem C5_frame_no_spontaneous_sand :
    ∀ (SIZE : Nat) (grid : Grid) (paint : Option PaintInput)
      (choices : Nat → Nat → Dir) (i j : Nat),
      (i, j) ∉ paintSet SIZE paint →
      (∀ r, r < SIZE → ∀ c, c < SIZE → getCell grid r c = 1 →
        dest SIZE grid choices r c ≠ (i, j)) →
      getCell (update_grid SIZE grid paint choices) i j = 0 := by
  intro SIZE grid paint choices i j hp hd
  have htw : (i, j) ∉ tickWrites SIZE grid choices := by
    intro hm
    rcases (mem_tickWrites SIZE grid choices (i, j)).mp hm with
      ⟨r, c, hr, hc, hs, hdd⟩
    exact hd r hr c hc hs hdd
  rw [getCell_update_grid, if_neg htw, if_neg hp]

/-- Witness for C5: cell (0, 1) of a SIZE = 2 grid with one falling
particle at (0, 0) stays EMPTY. -/
theorem C5_frame_no_spontaneous_sand_witness :
    getCell (update_grid 2 [[1,0],[0,0]] none (fun _ _ => Dir.right)) 0 1 = 0 :=
  C5_frame_no_spontaneous_sand 2 [[1,0],[0,0]] none (fun _ _ => Dir.right)
    0 1 (by decide) (by decide)

/-! ### Reset -/

lemma sandCount_generate_grid (SIZE : Nat) : sandCount (generate_grid SIZE) = 0 := by
  unfold sandCount generate_grid
  rw [List.map_replicate]
  have hc : (List.replicate SIZE (0 : Nat)).countP (fun v => v == 1) = 0 := by
    rw [List.countP_eq_zero]
    intro a ha
    rw [List.eq_of_mem_replicate ha]
    decide
  rw [hc]
  simp

/-- Claim C7: for every prior state, handling a RESET event (key r or c)
replaces the grid with a freshly generated SIZE × SIZE grid in which every
cell is EMPTY (zero SAND cells). -/
theorem C7_reset_clears_grid :
    ∀ (s : EngineState) (k : Key), (k = Key.r ∨ k = Key.c) →
      (handle_event s (GEvent.keydown k)).grid = generate_grid s.SIZE
      ∧ isSquare s.SIZE (handle_event s (GEvent.keydown k)).grid
      ∧ (∀ i j, getCell (handle_event s (GEvent.keydown k)).grid i j = 0)
      ∧ sandCount (handle_event s (GEvent.keydown k)).grid = 0 := by
  intro s k hk
  have hg : (handle_event s (GEvent.keydown k)).grid = generate_grid s.SIZE := by
    rcases hk with rfl | rfl <;> rfl
  refine ⟨hg, ?_, ?_, ?_⟩
  · rw [hg]
    exact isSquare_generate_grid s.SIZE
  · intro i j
    rw [hg]
    exact getCell_generate_grid s.SIZE i j
  · rw [hg]
    exact sandCount_generate_grid s.SIZE

/-- Witness for C7: resetting a SIZE = 2 state full of SAND empties it. -/
theorem C7_reset_clears_grid_witness :
    (handle_event ⟨2, [[1,1],[1,1]], true⟩ (GEvent.keydown Key.r)).grid
        = generate_grid 2
      ∧ isSquare 2 (handle_event ⟨2, [[1,1],[1,1]], true⟩
          (GEvent.keydown Key.r)).grid
      ∧ (∀ i j, getCell (handle_event ⟨2, [[1,1],[1,1]], true⟩
          (GEvent.keydown Key.r)).grid i j = 0)
      ∧ sandCount (handle_event ⟨2, [[1,1],[1,1]], true⟩
          (GEvent.keydown Key.r)).grid = 0 :=
  C7_reset_clears_grid ⟨2, [[1,1],[1,1]], true⟩ Key.r (Or.inl rfl)

/-! ### Destination collisions (claim C1) -/

/-- Counterexample to C1 as stated: in the SIZE = 3 grid with SAND at
(0,0), (0,1) and (1,0), under the random assignment that sends (0,0) to
the right, the distinct sources (0,0) (diagonal slide) and (0,1)
(straight fall) compute the same destination (1,1), and one tick loses a
particle (count 3 becomes 2). -/
theorem C1_distinct_destinations_cex :
    getCell [[1,1,0],[1,0,0],[0,0,0]] 0 0 = 1
    ∧ getCell [[1,1,0],[1,0,0],[0,0,0]] 0 1 = 1
    ∧ ((0, 0) : Nat × Nat) ≠ (0, 1)
    ∧ dest 3 [[1,1,0],[1,0,0],[0,0,0]] (fun _ _ => Dir.right) 0 0
        = dest 3 [[1,1,0],[1,0,0],[0,0,0]] (fun _ _ => Dir.right) 0 1
    ∧ sandCount [[1,1,0],[1,0,0],[0,0,0]] = 3
    ∧ sandCount (update_grid 3 [[1,1,0],[1,0,0],[0,0,0]] none
        (fun _ _ => Dir.right)) = 2 := by
  decide

/-- Claim C1, amended: destinations of distinct SAND sources that both
fall straight down are pairwise distinct; but when a diagonal slide is
involved two distinct sources can compute the same destination (see the
counterexample), so destination uniqueness does not hold in general. -/
theorem C1_amended_straight_fall_injective :
    ∀ (SIZE : Nat) (grid : Grid) (choices : Nat → Nat → Dir)
      (r1 c1 r2 c2 : Nat),
      within_rows SIZE ((r1 + 1 : Nat) : Int) = true →
      getCell grid (r1 + 1) c1 = 0 →
      within_rows SIZE ((r2 + 1 : Nat) : Int) = true →
      getCell grid (r2 + 1) c2 = 0 →
      dest SIZE grid choices r1 c1 = dest SIZE grid choices r2 c2 →
      r1 = r2 ∧ c1 = c2 := by
  intro SIZE grid choices r1 c1 r2 c2 h1 h2 h3 h4 heq
  rw [dest_fall SIZE grid choices r1 c1 h1 h2,
    dest_fall SIZE grid choices r2 c2 h3 h4] at heq
  injection heq with e1 e2
  exact ⟨by omega, e2⟩

/-- Witness for the amended C1 at two straight-falling sources of a
concrete SIZE = 3 grid. -/
theorem C1_amended_straight_fall_injective_witness :
    (0 : Nat) = 0 ∧ (0 : Nat) = 0 :=
  C1_amended_straight_fall_injective 3 [[1,0,0],[0,0,0],[0,0,0]]
    (fun _ _ => Dir.left) 0 0 0 0 (by decide) (by decide) (by decide)
    (by decide) rfl

/-! ### The diagonal-slide scenario (claim C2) -/

lemma dest_congr (SIZE : Nat) (grid : Grid) (ch1 ch2 : Nat → Nat → Dir)
    (row col : Nat) (h : ch1 row col = ch2 row col) :
    dest SIZE grid ch1 row col = dest SIZE grid ch2 row col := by
  unfold dest
  simp only [h]

/-- Counterexample to C2 as stated: in the SIZE = 3 grid with SAND at
(0,0) and (1,0), when the random lateral choice for (0,0) is -1 the
candidate column is out of range, so the particle rests at (0,0) instead
of sliding to (1,1): the move to (1,1) does not happen for every random
lateral choice. -/
theorem C2_diag_slide_cex :
    update_grid 3 [[1,0,0],[1,0,0],[0,0,0]] none (fun _ _ => Dir.left)
      = [[1,0,0],[0,0,0],[1,0,0]]
    ∧ getCell (update_grid 3 [[1,0,0],[1,0,0],[0,0,0]] none
        (fun _ _ => Dir.left)) 1 1 = 0
    ∧ getCell (update_grid 3 [[1,0,0],[1,0,0],[0,0,0]] none
        (fun _ _ => Dir.left)) 0 0 = 1 := by
  decide

/-- Claim C2, amended: in the SIZE = 3 grid with SAND at (0,0) and (1,0)
and (1,1) empty, the (0,0) particle moves to (1,1) exactly when the
random lateral choice sampled for it is +1; when the choice is -1 the
candidate column -1 is out of range and the particle rests at (0,0).
(The (1,0) particle falls straight to (2,0) in both cases.) -/
theorem C2_amended_diag_slide :
    ∀ ch : Nat → Nat → Dir,
      (ch 0 0 = Dir.right →
        update_grid 3 [[1,0,0],[1,0,0],[0,0,0]] none ch
          = [[0,0,0],[0,1,0],[1,0,0]])
      ∧ (ch 0 0 = Dir.left →
        update_grid 3 [[1,0,0],[1,0,0],[0,0,0]] none ch
          = [[1,0,0],[0,0,0],[1,0,0]]) := by
  intro ch
  have ht : tickWrites 3 [[1,0,0],[1,0,0],[0,0,0]] ch
      = [dest 3 [[1,0,0],[1,0,0],[0,0,0]] ch 0 0,
         dest 3 [[1,0,0],[1,0,0],[0,0,0]] ch 1 0] := rfl
  constructor
  · intro h
    have hd : dest 3 [[1,0,0],[1,0,0],[0,0,0]] ch 0 0 = (1, 1) := by
      rw [dest_congr 3 [[1,0,0],[1,0,0],[0,0,0]] ch (fun _ _ => Dir.right)
        0 0 h]
      decide
    rw [update_grid_eq_writes, ht, hd,
      show dest 3 [[1,0,0],[1,0,0],[0,0,0]] ch 1 0 = (2, 0) from rfl]
    decide
  · intro h
    have hd : dest 3 [[1,0,0],[1,0,0],[0,0,0]] ch 0 0 = (0, 0) := by
      rw [dest_congr 3 [[1,0,0],[1,0,0],[0,0,0]] ch (fun _ _ => Dir.left)
        0 0 h]
      decide
    rw [update_grid_eq_writes, ht, hd,
      show dest 3 [[1,0,0],[1,0,0],[0,0,0]] ch 1 0 = (2, 0) from rfl]
    decide

/-- Witness for the amended C2: with the +1 choice the slide to (1,1)
happens. -/
theorem C2_amended_diag_slide_witness :
    update_grid 3 [[1,0,0],[1,0,0],[0,0,0]] none (fun _ _ => Dir.right)
      = [[0,0,0],[0,1,0],[1,0,0]] :=
  (C2_amended_diag_slide (fun _ _ => Dir.right)).1 rfl

/-! ### Sand count (claim C10) -/

lemma countP_set_le {α} (p : α → Bool) (l : List α) (v : α) :
    ∀ i, (l.set i v).countP p ≤ l.countP p + 1 := by
  induction l with
  | nil => intro i; simp
  | cons x t ih =>
    intro i
    cases i with
    | zero =>
      rw [List.set_cons_zero, List.countP_cons, List.countP_cons]
      by_cases hv : p v = true <;> by_cases hx : p x = true <;>
        (simp [hv, hx]; try omega)
    | succ i =>
      rw [List.set_cons_succ, List.countP_cons, List.countP_cons]
      have := ih i
      omega

lemma sandCount_cons (r : List Nat) (t : Grid) :
    sandCount (r :: t) = r.countP (fun v => v == 1) + sandCount t := by
  unfold sandCount
  rw [List.map_cons, List.sum_cons]

lemma sandCount_setCell_le (g : Grid) (b : Nat) :
    ∀ a, sandCount (setCell g a b 1) ≤ sandCount g + 1 := by
  induction g with
  | nil => intro a; simp [setCell, sandCount]
  | cons x t ih =>
    intro a
    cases a with
    | zero =>
      show sandCount ((x.set b 1) :: t) ≤ sandCount (x :: t) + 1
      rw [sandCount_cons, sandCount_cons]
      have := countP_set_le (fun v => v == 1) x 1 b
      omega
    | succ a =>
      show sandCount (x :: setCell t a b 1) ≤ sandCount (x :: t) + 1
      rw [sandCount_cons, sandCount_cons]
      have := ih a
      omega

lemma sandCount_applyWrites_le (ws : List (Nat × Nat)) :
    ∀ g, sandCount (applyWrites g ws) ≤ sandCount g + ws.length := by
  induction ws with
  | nil => intro g; simp [applyWrites_nil]
  | cons w t ih =>
    intro g
    rw [applyWrites_cons]
    have h1 := ih (setCell g w.1 w.2 1)
    have h2 := sandCount_setCell_le g w.2 w.1
    rw [List.length_cons]
    omega

lemma map_getD_range {α} (d : α) :
    ∀ l : List α, (List.range l.length).map (fun i => l.getD i d) = l := by
  intro l
  induction l with
  | nil => rfl
  | cons x t ih =>
    rw [List.length_cons, List.range_succ_eq_map, List.map_cons,
      List.map_map]
    have : ((fun i => (x :: t).getD i d) ∘ Nat.succ) = fun i => t.getD i d := by
      funext i
      rfl
    rw [this, ih]
    rfl

lemma length_filterMap_ite {α β} (p : α → Prop) [DecidablePred p]
    (f : α → β) (l : List α) :
    (l.filterMap (fun a => if p a then some (f a) else none)).length
      = l.countP (fun a => decide (p a)) := by
  induction l with
  | nil => rfl
  | cons x t ih =>
    rw [List.filterMap_cons, List.countP_cons]
    by_cases hx : p x
    · rw [if_pos hx]
      simp [ih, hx]
    · rw [if_neg hx]
      simp [ih, hx]

lemma countP_row_eq (l : List Nat) :
    (List.range l.length).countP (fun i => decide (l.getD i 0 = 1))
      = l.countP (fun v => v == 1) := by
  have h1 : (List.range l.length).countP (fun i => decide (l.getD i 0 = 1))
      = ((List.range l.length).map (fun i => l.getD i 0)).countP
          (fun v => decide (v = 1)) := by
    rw [List.countP_map]
    rfl
  rw [h1, map_getD_range 0 l]
  apply List.countP_congr
  intro v _
  by_cases hv : v = 1 <;> simp [hv]

lemma tickWrites_length {SIZE : Nat} {grid : Grid}
    (choices : Nat → Nat → Dir) (hsq : isSquare SIZE grid) :
    (tickWrites SIZE grid choices).length = sandCount grid := by
  unfold tickWrites
  rw [List.length_flatMap]
  have hrow : ∀ row ∈ List.range SIZE,
      (List.length ∘ fun row => (List.range SIZE).filterMap (fun col =>
        if getCell grid row col = 1 then some (dest SIZE grid choices row col)
        else none)) row
      = (fun row => (grid.getD row []).countP (fun v => v == 1)) row := by
    intro row hrowmem
    have hlt : row < SIZE := List.mem_range.mp hrowmem
    show ((List.range SIZE).filterMap (fun col =>
        if getCell grid row col = 1 then some (dest SIZE grid choices row col)
        else none)).length
      = (grid.getD row []).countP (fun v => v == 1)
    rw [length_filterMap_ite (fun col => getCell grid row col = 1)
      (fun col => dest SIZE grid choices row col) (List.range SIZE)]
    have hlen : (grid.getD row []).length = SIZE := row_length_of_isSquare hsq hlt
    rw [← hlen]
    exact countP_row_eq (grid.getD row [])
  rw [List.map_congr_left hrow]
  have hmap : (List.range SIZE).map
      (fun row => (grid.getD row []).countP (fun v => v == 1))
      = grid.map (fun r => r.countP (fun v => v == 1)) := by
    have h2 : (List.range SIZE).map (fun row => grid.getD row [])
        = grid := by
      rw [← hsq.1]
      exact map_getD_range [] grid
    have h3 : ((List.range SIZE).map (fun row => grid.getD row [])).map
        (fun r => r.countP (fun v => v == 1))
        = (List.range SIZE).map
            (fun row => (grid.getD row []).countP (fun v => v == 1)) := by
      rw [List.map_map]
      rfl
    rw [← h3, h2]
  rw [hmap]
  rfl

lemma cellsBinary_setCell {g : Grid} (h : cellsBinary g) (a b : Nat) :
    cellsBinary (setCell g a b 1) := by
  intro r hr
  unfold setCell at hr
  rcases List.mem_or_eq_of_mem_set hr with hr2 | hr2
  · exact h _ hr2
  · subst hr2
    intro v hv
    rcases List.mem_or_eq_of_mem_set hv with hv2 | hv2
    · by_cases ha : a < g.length
      · exact h _ (by rw [List.getD_eq_getElem g [] ha]
                      exact List.getElem_mem ha) _ hv2
      · rw [List.getD_eq_getElem?_getD, List.getElem?_eq_none
          (Nat.le_of_not_lt ha)] at hv2
        cases hv2
    · exact Or.inr hv2

lemma cellsBinary_applyWrites {g : Grid} (h : cellsBinary g)
    (ws : List (Nat × Nat)) : cellsBinary (applyWrites g ws) := by
  induction ws generalizing g with
  | nil => exact h
  | cons w t ih => exact ih (cellsBinary_setCell h w.1 w.2)

lemma cellsBinary_generate_grid (SIZE : Nat) :
    cellsBinary (generate_grid SIZE) := by
  intro r hr
  rw [List.eq_of_mem_replicate hr]
  intro v hv
  rw [List.eq_of_mem_replicate hv]
  exact Or.inl rfl

lemma cellsBinary_paintBuffer (SIZE : Nat) (paint : Option PaintInput) :
    cellsBinary (paintBuffer SIZE paint) := by
  cases paint with
  | none => exact cellsBinary_generate_grid SIZE
  | some p =>
    show cellsBinary
      (handle_drag SIZE p.RADIUS p.mxr p.myc p.keep (generate_grid SIZE))
    rw [handle_drag_eq_writes]
    exact cellsBinary_applyWrites (cellsBinary_generate_grid SIZE) _

/-- Claim C10: one tick without paint never increases the number of SAND
cells, and generate_grid and update_grid always produce a SIZE × SIZE
grid whose cells are all 0 or 1. -/
theorem C10_count_and_shape_invariants :
    (∀ (SIZE : Nat) (grid : Grid) (choices : Nat → Nat → Dir),
      isSquare SIZE grid → cellsBinary grid →
      sandCount (update_grid SIZE grid none choices) ≤ sandCount grid)
    ∧ (∀ SIZE : Nat,
        isSquare SIZE (generate_grid SIZE) ∧ cellsBinary (generate_grid SIZE))
    ∧ (∀ (SIZE : Nat) (grid : Grid) (paint : Option PaintInput)
        (choices : Nat → Nat → Dir),
        isSquare SIZE (update_grid SIZE grid paint choices)
        ∧ cellsBinary (update_grid SIZE grid paint choices)) := by
  refine ⟨?_, ?_, ?_⟩
  · intro SIZE grid choices hsq _
    rw [update_grid_eq_writes]
    have h1 := sandCount_applyWrites_le (tickWrites SIZE grid choices)
      (paintBuffer SIZE (none : Option PaintInput))
    have h2 : sandCount (paintBuffer SIZE (none : Option PaintInput)) = 0 :=
      sandCount_generate_grid SIZE
    have h3 := tickWrites_length choices hsq
    omega
  · intro SIZE
    exact ⟨isSquare_generate_grid SIZE, cellsBinary_generate_grid SIZE⟩
  · intro SIZE grid paint choices
    refine ⟨isSquare_update_grid SIZE grid paint choices, ?_⟩
    rw [update_grid_eq_writes]
    exact cellsBinary_applyWrites (cellsBinary_paintBuffer SIZE paint) _

/-- Witness for C10: one tick of a concrete SIZE = 2 grid with one
particle keeps the count at most 1. -/
theorem C10_count_and_shape_invariants_witness :
    sandCount (update_grid 2 [[1,0],[0,0]] none (fun _ _ => Dir.left))
      ≤ sandCount [[1,0],[0,0]] :=
  C10_count_and_shape_invariants.1 2 [[1,0],[0,0]] (fun _ _ => Dir.left)
    ⟨by decide, by decide⟩ (by unfold cellsBinary; decide)

/-! ### Index-checked access agrees with the guarded code (claim C6) -/

lemma readCell_eq {SIZE : Nat} {g : Grid} (hsq : isSquare SIZE g)
    {row col : Nat} (hr : row < SIZE) (hc : col < SIZE) :
    readCell g (row : Int) (col : Int) = some (getCell g row col) := by
  unfold readCell getCell
  have ht : ((row : Int)).toNat = row := Int.toNat_ofNat row
  have ht2 : ((col : Int)).toNat = col := Int.toNat_ofNat col
  rw [ht, ht2]
  have hl : (g.getD row []).length = SIZE := row_length_of_isSquare hsq hr
  rw [if_pos ⟨by omega, by rw [hsq.1]; exact_mod_cast hr⟩,
    if_pos ⟨by omega, by rw [hl]; exact_mod_cast hc⟩]

lemma readCell_eq_mixed {SIZE : Nat} {g : Grid} (hsq : isSquare SIZE g)
    {row : Nat} {col : Int} (hr : row < SIZE) (h0 : 0 ≤ col)
    (hc : col.toNat < SIZE) :
    readCell g (row : Int) col = some (getCell g row col.toNat) := by
  unfold readCell getCell
  have ht : ((row : Int)).toNat = row := Int.toNat_ofNat row
  rw [ht]
  have hl : (g.getD row []).length = SIZE := row_length_of_isSquare hsq hr
  rw [if_pos ⟨by omega, by rw [hsq.1]; exact_mod_cast hr⟩,
    if_pos ⟨h0, by rw [hl]; omega⟩]

lemma writeCell_eq_nat {SIZE : Nat} {g : Grid} (hsq : isSquare SIZE g)
    {row col : Nat} (hr : row < SIZE) (hc : col < SIZE) (v : Nat) :
    writeCell g (row : Int) (col : Int) v = some (setCell g row col v) := by
  unfold writeCell setCell
  have ht : ((row : Int)).toNat = row := Int.toNat_ofNat row
  have ht2 : ((col : Int)).toNat = col := Int.toNat_ofNat col
  rw [ht, ht2]
  have hl : (g.getD row []).length = SIZE := row_length_of_isSquare hsq hr
  rw [if_pos ⟨by omega, by rw [hsq.1]; exact_mod_cast hr⟩,
    if_pos ⟨by omega, by rw [hl]; exact_mod_cast hc⟩]

lemma writeCell_eq_int {SIZE : Nat} {g : Grid} (hsq : isSquare SIZE g)
    {row col : Int} (hr0 : 0 ≤ row) (hr : row.toNat < SIZE) (hc0 : 0 ≤ col)
    (hc : col.toNat < SIZE) (v : Nat) :
    writeCell g row col v = some (setCell g row.toNat col.toNat v) := by
  unfold writeCell setCell
  have hl : (g.getD row.toNat []).length = SIZE := row_length_of_isSquare hsq hr
  rw [if_pos ⟨hr0, by rw [hsq.1]; omega⟩, if_pos ⟨hc0, by rw [hl]; omega⟩]

lemma writeCell_eq_mixed {SIZE : Nat} {g : Grid} (hsq : isSquare SIZE g)
    {row : Nat} {col : Int} (hr : row < SIZE) (hc0 : 0 ≤ col)
    (hc : col.toNat < SIZE) (v : Nat) :
    writeCell g (row : Int) col v = some (setCell g row col.toNat v) := by
  have h := writeCell_eq_int hsq (by omega : (0:Int) ≤ (row : Int))
    (by rw [Int.toNat_ofNat]; exact hr) hc0 hc v
  rw [h, Int.toNat_ofNat]

lemma foldlM_eq_some (P : Grid → Prop)
    (f : Grid → Nat → Option Grid) (g0 : Grid → Nat → Grid) :
    ∀ (L : List Nat) (g : Grid), P g →
      (∀ b x, P b → x ∈ L → f b x = some (g0 b x)) →
      (∀ b x, P b → P (g0 b x)) →
      L.foldlM f g = some (L.foldl g0 g) := by
  intro L
  induction L with
  | nil =>
    intro g _ _ _
    rfl
  | cons x t ih =>
    intro g hg hf hP
    rw [List.foldlM_cons, hf g x hg (List.mem_cons_self _ _)]
    show t.foldlM f (g0 g x) = some ((x :: t).foldl g0 g)
    rw [List.foldl_cons]
    exact ih (g0 g x) (hP g x hg)
      (fun b y hb hy => hf b y hb (List.mem_cons_of_mem _ hy)) hP

lemma paintCellChecked_eq (SIZE : Nat) (mxr myc : Int)
    (keep : Nat → Nat → Bool) (row : Nat) {g : Grid}
    (hsq : isSquare SIZE g) (column : Nat) :
    paintCellChecked SIZE mxr myc keep row g column
      = some (paintCell SIZE mxr myc keep row g column) := by
  unfold paintCellChecked paintCell
  by_cases hk : keep row column = true
  · rw [if_pos hk, if_pos hk]
    by_cases hg2 : (within_cols SIZE (myc + column)
        && within_rows SIZE (mxr + row)) = true
    · rw [if_pos hg2, if_pos hg2]
      rw [Bool.and_eq_true] at hg2
      have hc := (within_cols_iff _ _).mp hg2.1
      have hr := (within_rows_iff _ _).mp hg2.2
      exact writeCell_eq_int hsq (by omega) (by omega) (by omega) (by omega) 1
    · rw [if_neg hg2, if_neg hg2]
  · rw [if_neg hk, if_neg hk]

lemma handle_dragChecked_eq (SIZE RADIUS : Nat) (mxr myc : Int)
    (keep : Nat → Nat → Bool) {g : Grid} (hsq : isSquare SIZE g) :
    handle_dragChecked SIZE RADIUS mxr myc keep g
      = some (handle_drag SIZE RADIUS mxr myc keep g) := by
  unfold handle_dragChecked handle_drag
  apply foldlM_eq_some (isSquare SIZE) _ _ _ _ hsq
  · intro b row hb _
    apply foldlM_eq_some (isSquare SIZE) _ _ _ _ hb
    · intro b2 column hb2 _
      exact paintCellChecked_eq SIZE mxr myc keep row hb2 column
    · intro b2 column hb2
      unfold paintCell
      by_cases hk : keep row column = true
      · rw [if_pos hk]
        by_cases hg2 : (within_cols SIZE (myc + column)
            && within_rows SIZE (mxr + row)) = true
        · rw [if_pos hg2]
          exact isSquare_setCell hb2 _ _ 1
        · rw [if_neg hg2]
          exact hb2
      · rw [if_neg hk]
        exact hb2
  · intro b row hb
    have he := foldl_filterMap_eq (paintCell SIZE mxr myc keep row) _
      (paintCell_eq SIZE mxr myc keep row) (List.range (RADIUS / 2)) b
    rw [he]
    exact isSquare_applyWrites hb _

lemma moveCellChecked_eq {SIZE : Nat} {grid : Grid}
    (choices : Nat → Nat → Dir) (row : Nat) {ng : Grid} (col : Nat)
    (hsqg : isSquare SIZE grid) (hsqn : isSquare SIZE ng)
    (hrow : row < SIZE) (hcol : col < SIZE) :
    moveCellChecked SIZE grid choices row ng col
      = some (moveCell SIZE grid choices row ng col) := by
  have hfall : (if within_rows SIZE ((row + 1 : Nat) : Int) then do
        let b ← readCell grid ((row + 1 : Nat) : Int) (col : Int)
        pure (decide (b = 0))
      else pure false)
      = some (within_rows SIZE ((row + 1 : Nat) : Int)
          && decide (getCell grid (row + 1) col = 0)) := by
    by_cases hwr : within_rows SIZE ((row + 1 : Nat) : Int) = true
    · have hb : row + 1 < SIZE := by
        have := (within_rows_iff SIZE _).mp hwr
        omega
      rw [if_pos hwr, readCell_eq hsqg hb hcol]
      simp only [Option.bind_eq_bind, Option.some_bind, Option.pure_def]
      rw [hwr, Bool.true_and]
    · rw [if_neg hwr]
      simp only [Option.pure_def]
      rw [eq_false_of_ne_true hwr, Bool.false_and]
  have hslide : (if (within_cols SIZE ((col : Int) + (choices row col).val)
        && within_rows SIZE ((row + 1 : Nat) : Int)) = true then do
        let b ← readCell grid ((row + 1 : Nat) : Int)
          ((col : Int) + (choices row col).val)
        pure (decide (b = 0))
      else pure false)
      = some ((within_cols SIZE ((col : Int) + (choices row col).val)
          && within_rows SIZE ((row + 1 : Nat) : Int))
          && decide (getCell grid (row + 1)
              ((col : Int) + (choices row col).val).toNat = 0)) := by
    by_cases hg2 : (within_cols SIZE ((col : Int) + (choices row col).val)
        && within_rows SIZE ((row + 1 : Nat) : Int)) = true
    · have hg3 := hg2
      rw [Bool.and_eq_true] at hg3
      have hcI := (within_cols_iff SIZE _).mp hg3.1
      have hrI := (within_rows_iff SIZE _).mp hg3.2
      have hb : row + 1 < SIZE := by omega
      rw [if_pos hg2, readCell_eq_mixed hsqg hb (by omega) (by omega)]
      simp only [Option.bind_eq_bind, Option.some_bind, Option.pure_def]
      rw [hg2, Bool.true_and]
    · rw [if_neg hg2]
      simp only [Option.pure_def]
      rw [eq_false_of_ne_true hg2, Bool.false_and]
  simp only [Option.bind_eq_bind] at hfall hslide
  unfold moveCellChecked moveCell
  rw [readCell_eq hsqg hrow hcol]
  simp only [Option.bind_eq_bind, Option.some_bind]
  by_cases hcell : getCell grid row col = 1
  · rw [if_neg (show ¬ (getCell grid row col ≠ 1) from fun hcon => hcon hcell),
      if_neg (show ¬ (getCell grid row col ≠ 1) from fun hcon => hcon hcell)]
    rw [hfall]
    simp only [Option.bind_eq_bind, Option.some_bind]
    by_cases hf : (within_rows SIZE ((row + 1 : Nat) : Int)
        && decide (getCell grid (row + 1) col = 0)) = true
    · rw [if_pos hf, if_pos hf]
      have hb : row + 1 < SIZE := by
        rw [Bool.and_eq_true] at hf
        have := (within_rows_iff SIZE _).mp hf.1
        omega
      exact writeCell_eq_nat hsqn hb hcol 1
    · rw [if_neg hf, if_neg hf]
      rw [hslide]
      simp only [Option.bind_eq_bind, Option.some_bind]
      by_cases hs : ((within_cols SIZE ((col : Int) + (choices row col).val)
          && within_rows SIZE ((row + 1 : Nat) : Int))
          && decide (getCell grid (row + 1)
              ((col : Int) + (choices row col).val).toNat = 0)) = true
      · rw [if_pos hs, if_pos hs]
        have hs2 := hs
        rw [Bool.and_eq_true, Bool.and_eq_true] at hs2
        have hcI := (within_cols_iff SIZE _).mp hs2.1.1
        have hrI := (within_rows_iff SIZE _).mp hs2.1.2
        have hb : row + 1 < SIZE := by omega
        exact writeCell_eq_mixed hsqn hb (by omega) (by omega) 1
      · rw [if_neg hs, if_neg hs]
        exact writeCell_eq_nat hsqn hrow hcol _
  · rw [if_pos hcell, if_pos hcell]
    rfl

lemma isSquare_moveCell {SIZE : Nat} {grid : Grid}
    {choices : Nat → Nat → Dir} {row : Nat} {ng : Grid}
    (hb : isSquare SIZE ng) (col : Nat) :
    isSquare SIZE (moveCell SIZE grid choices row ng col) := by
  cases hx : (if getCell grid row col = 1
      then some (dest SIZE grid choices row col) else none) with
  | none =>
    rw [moveCell_eq SIZE grid choices row ng col, hx]
    exact hb
  | some w =>
    rw [moveCell_eq SIZE grid choices row ng col, hx]
    exact isSquare_setCell hb w.1 w.2 1

lemma update_gridChecked_eq (SIZE : Nat) {grid : Grid}
    (paint : Option PaintInput) (choices : Nat → Nat → Dir)
    (hsq : isSquare SIZE grid) :
    update_gridChecked SIZE grid paint choices
      = some (update_grid SIZE grid paint choices) := by
  have hmain : ∀ g : Grid, isSquare SIZE g →
      (List.range SIZE).foldlM (fun ng row =>
        (List.range SIZE).foldlM (moveCellChecked SIZE grid choices row) ng) g
      = some ((List.range SIZE).foldl (fun ng row =>
          (List.range SIZE).foldl (moveCell SIZE grid choices row) ng) g) := by
    intro g hg
    apply foldlM_eq_some (isSquare SIZE) _ _ _ _ hg
    · intro b row hb hrow
      apply foldlM_eq_some (isSquare SIZE) _ _ _ _ hb
      · intro b2 col hb2 hcol
        exact moveCellChecked_eq choices row col hsq hb2
          (List.mem_range.mp hrow) (List.mem_range.mp hcol)
      · intro b2 col hb2
        exact isSquare_moveCell hb2 col
    · intro b row hb
      have he := foldl_filterMap_eq (moveCell SIZE grid choices row) _
        (moveCell_eq SIZE grid choices row) (List.range SIZE) b
      rw [he]
      exact isSquare_applyWrites hb _
  cases paint with
  | none =>
    show ((some (generate_grid SIZE) : Option Grid) >>= fun next1 =>
      (List.range SIZE).foldlM (fun ng row =>
        (List.range SIZE).foldlM (moveCellChecked SIZE grid choices row) ng)
        next1) = _
    simp only [Option.bind_eq_bind, Option.some_bind]
    exact hmain (generate_grid SIZE) (isSquare_generate_grid SIZE)
  | some p =>
    show (handle_dragChecked SIZE p.RADIUS p.mxr p.myc p.keep
        (generate_grid SIZE) >>= fun next1 =>
      (List.range SIZE).foldlM (fun ng row =>
        (List.range SIZE).foldlM (moveCellChecked SIZE grid choices row) ng)
        next1) = _
    rw [handle_dragChecked_eq SIZE p.RADIUS p.mxr p.myc p.keep
      (isSquare_generate_grid SIZE)]
    simp only [Option.bind_eq_bind, Option.some_bind]
    apply hmain
    rw [handle_drag_eq_writes]
    exact isSquare_applyWrites (isSquare_generate_grid SIZE) _

/-- Claim C6: every grid access performed by `update_grid` and
`handle_drag` is within bounds — running the index-checked versions,
which fail on any negative or overflowing index, never fails and agrees
with the guarded code on every SIZE × SIZE grid. -/
theorem C6_all_accesses_in_bounds :
    (∀ (SIZE RADIUS : Nat) (mxr myc : Int) (keep : Nat → Nat → Bool)
      (g : Grid), isSquare SIZE g →
      handle_dragChecked SIZE RADIUS mxr myc keep g
        = some (handle_drag SIZE RADIUS mxr myc keep g))
    ∧ (∀ (SIZE : Nat) (grid : Grid) (paint : Option PaintInput)
        (choices : Nat → Nat → Dir), isSquare SIZE grid →
        update_gridChecked SIZE grid paint choices
          = some (update_grid SIZE grid paint choices)) :=
  ⟨fun SIZE RADIUS mxr myc keep _ hsq =>
    handle_dragChecked_eq SIZE RADIUS mxr myc keep hsq,
  fun SIZE _ paint choices hsq =>
    update_gridChecked_eq SIZE paint choices hsq⟩

/-- Witness for C6: a concrete painted tick runs fully in bounds. -/
theorem C6_all_accesses_in_bounds_witness :
    update_gridChecked 2 [[1,0],[0,1]]
        (some ⟨5, 0, 0, fun _ _ => true⟩) (fun _ _ => Dir.left)
      = some (update_grid 2 [[1,0],[0,1]]
        (some ⟨5, 0, 0, fun _ _ => true⟩) (fun _ _ => Dir.left)) :=
  C6_all_accesses_in_bounds.2 2 [[1,0],[0,1]]
    (some ⟨5, 0, 0, fun _ _ => true⟩) (fun _ _ => Dir.left)
    ⟨by decide, by decide⟩

/-- Claim C9: paint candidates whose row or column is out of range are
skipped and write nothing: when every candidate is out of range the grid
is unchanged (same cells, same SAND count) and the index-checked run
still succeeds (nothing is clamped, no out-of-range access happens). -/
theorem C9_out_of_range_paint_skipped :
    ∀ (SIZE RADIUS : Nat) (mxr myc : Int) (keep : Nat → Nat → Bool)
      (g : Grid),
      (∀ row, row < RADIUS / 2 → ∀ column, column < RADIUS / 2 →
        ¬ (within_cols SIZE (myc + column) = true
            ∧ within_rows SIZE (mxr + row) = true)) →
      handle_drag SIZE RADIUS mxr myc keep g = g
      ∧ sandCount (handle_drag SIZE RADIUS mxr myc keep g) = sandCount g
      ∧ (isSquare SIZE g →
          handle_dragChecked SIZE RADIUS mxr myc keep g = some g) := by
  intro SIZE RADIUS mxr myc keep g hout
  have hempty : paintWrites SIZE RADIUS mxr myc keep = [] := by
    rw [List.eq_nil_iff_forall_not_mem]
    intro w hw
    rcases (mem_paintWrites SIZE RADIUS mxr myc keep w).mp hw with
      ⟨row, column, hrow, hcolumn, _, hc, hr, _⟩
    exact hout row hrow column hcolumn ⟨hc, hr⟩
  have hid : handle_drag SIZE RADIUS mxr myc keep g = g := by
    rw [handle_drag_eq_writes, hempty, applyWrites_nil]
  refine ⟨hid, by rw [hid], fun hsq => ?_⟩
  rw [handle_dragChecked_eq SIZE RADIUS mxr myc keep hsq, hid]

/-- Witness for C9: painting with the pointer far beyond the right edge
leaves a concrete grid untouched. -/
theorem C9_out_of_range_paint_skipped_witness :
    handle_drag 3 5 10 0 (fun _ _ => true) [[0,0,0],[0,0,0],[0,1,0]]
      = [[0,0,0],[0,0,0],[0,1,0]]
    ∧ sandCount (handle_drag 3 5 10 0 (fun _ _ => true)
        [[0,0,0],[0,0,0],[0,1,0]])
      = sandCount [[0,0,0],[0,0,0],[0,1,0]]
    ∧ (isSquare 3 [[0,0,0],[0,0,0],[0,1,0]] →
        handle_dragChecked 3 5 10 0 (fun _ _ => true) [[0,0,0],[0,0,0],[0,1,0]]
          = some [[0,0,0],[0,0,0],[0,1,0]]) :=
  C9_out_of_range_paint_skipped 3 5 10 0 (fun _ _ => true)
    [[0,0,0],[0,0,0],[0,1,0]] (by decide)

/-! ### The fixed-step catch-up loop (claim C8) -/

lemma delta_time_pos : (0 : ℚ) < delta_time := by
  norm_num [delta_time, TICKRATE]

lemma tickLoop_spec (E : ℚ) :
    0 ≤ E →
      E = ((tickLoop E).1 : ℚ) * delta_time + (tickLoop E).2
      ∧ 0 ≤ (tickLoop E).2 ∧ (tickLoop E).2 < delta_time := by
  induction E using tickLoop.induct with
  | case1 E h ih =>
    intro _
    have hd := delta_time_pos
    have hE2 : (0 : ℚ) ≤ E - delta_time := by linarith
    obtain ⟨h1, h2, h3⟩ := ih hE2
    have hfst : (tickLoop E).1 = (tickLoop (E - delta_time)).1 + 1 := by
      rw [tickLoop, dif_pos h]
    have hsnd : (tickLoop E).2 = (tickLoop (E - delta_time)).2 := by
      rw [tickLoop, dif_pos h]
    rw [hfst, hsnd]
    refine ⟨?_, h2, h3⟩
    push_cast
    linarith
  | case2 E h =>
    intro hE
    have hfst : (tickLoop E).1 = 0 := by
      rw [tickLoop, dif_neg h]
    have hsnd : (tickLoop E).2 = E := by
      rw [tickLoop, dif_neg h]
    rw [hfst, hsnd]
    refine ⟨by simp, hE, by linarith [not_le.mp h]⟩

/-- Claim C8: for every nonnegative elapsed time E, the catch-up loop of
`run` ticks the engine exactly `floor (E / delta_time)` times and leaves
a remaining accumulated time in `[0, delta_time)` — no tick is dropped
and multiple ticks run when E is at least two tick durations. -/
theorem C8_fixed_step_catchup :
    ∀ E : ℚ, 0 ≤ E →
      (tickLoop E).1 = Nat.floor (E / delta_time)
      ∧ (tickLoop E).2
          = E - (Nat.floor (E / delta_time) : ℚ) * delta_time
      ∧ 0 ≤ (tickLoop E).2 ∧ (tickLoop E).2 < delta_time := by
  intro E hE
  obtain ⟨h1, h2, h3⟩ := tickLoop_spec E hE
  have hd := delta_time_pos
  have hcount : (tickLoop E).1 = Nat.floor (E / delta_time) := by
    symm
    rw [Nat.floor_eq_iff (by positivity)]
    constructor
    · rw [le_div_iff₀ hd]
      linarith
    · rw [div_lt_iff₀ hd]
      linarith
  refine ⟨hcount, ?_, h2, h3⟩
  rw [← hcount]
  linarith

/-- Witness for C8: a frame 0.1 s late runs exactly three 1/30 s ticks
and keeps a zero remainder. -/
theorem C8_fixed_step_catchup_witness :
    (tickLoop (1/10)).1 = Nat.floor ((1/10 : ℚ) / delta_time)
    ∧ (tickLoop (1/10)).2
        = (1/10 : ℚ) - (Nat.floor ((1/10 : ℚ) / delta_time) : ℚ) * delta_time
    ∧ 0 ≤ (tickLoop (1/10 : ℚ)).2 ∧ (tickLoop (1/10 : ℚ)).2 < delta_time :=
  C8_fixed_step_catchup (1/10) (by norm_num)
